import Mathlib

/-!
Verification development for the fluxlog asynchronous log shipper
(files src/init.go and src/log/logging.go).

The development shallowly embeds the parts of the program the claims
speak about:

- the pooled buffer allocator (getBuffer / getBytes, src/init.go lines 44 to 68),
  with Go byte slices and bytes.Buffer modelled explicitly;
- the background publish loop started by NewLogger
  (src/init.go lines 107 to 157), as a step function on an explicit loop
  state, with Go semantics of break inside select and switch embedded
  faithfully: such a break exits only the select or switch statement,
  never the surrounding for loop;
- the retry protocol around PublishAsync (src/init.go lines 131 to 152),
  driven by a script assigning to each call of PublishAsync its outcome;
- the facade operations doEntry, doMsg, Close and the level wrappers of
  src/log/logging.go, including the fragment of fmt.Sprintf they use.

External collaborators (the nsq producer, the gringo queue) and the two
encoder functions whose defining file is not part of the sources given
(EntrytoSegment, LogMsgtoSegment) are modelled at their interface, the
queue and message encoder from the words of the specification.
-/

/-! ### Log levels (src/log/logging.go lines 8 to 17) -/

inductive LogLevel
  | DEBUG
  | INFO
  | WARN
  | ERROR
  | FATAL
deriving DecidableEq, Repr

/-! ### Pooled buffer allocator (src/init.go lines 41 to 68)

A Go byte slice is a view of a backing array together with a length; we
model the offset-zero views the pool code manipulates. A bytes.Buffer
holds accumulated bytes and a capacity. sync.Pool.Get may hand back any
value previously put into the pool (or a fresh one), so the checkout
functions take the popped value as an argument and return what the
caller receives. -/

structure GoSlice where
  backing : List Nat
  len : Nat
deriving DecidableEq, Repr

/-- Go reslicing b[0:j] of an offset-zero slice: same backing array, length j. -/
def GoSlice.resliceTo (b : GoSlice) (j : Nat) : GoSlice :=
  { backing := b.backing, len := j }

/-- Go writes b[0:] as b[0:len(b)]. -/
def GoSlice.resliceFull (b : GoSlice) : GoSlice :=
  b.resliceTo b.len

/-- The bytes visible through the slice. -/
def GoSlice.contents (b : GoSlice) : List Nat :=
  b.backing.take b.len

/-- Model of bytes.Buffer: the accumulated bytes and the capacity of the
underlying array. -/
structure GoBuffer where
  data : List Nat
  capacity : Nat
deriving DecidableEq, Repr

/-- Buffer.Truncate(0): discard all accumulated bytes, retain the
underlying array. -/
def GoBuffer.truncate0 (b : GoBuffer) : GoBuffer :=
  { data := [], capacity := b.capacity }

/-- getBuffer, src/init.go lines 44 to 51: pop a buffer from the pool and
truncate it to length zero. The argument is the value the pool handed back. -/
def getBuffer (popped : GoBuffer) : GoBuffer :=
  popped.truncate0

/-- putBuffer, src/init.go lines 53 to 55: return a buffer to the pool. -/
def putBuffer (pool : List GoBuffer) (buf : GoBuffer) : List GoBuffer :=
  buf :: pool

/-- getBytes, src/init.go lines 57 to 64: pop a slice from the pool and
reslice it as bytes[0:], which is bytes[0:len(bytes)]. The argument is the
value the pool handed back. -/
def getBytes (popped : GoSlice) : GoSlice :=
  popped.resliceFull

/-- putBytes, src/init.go lines 66 to 68: return a slice to the pool. -/
def putBytes (pool : List GoSlice) (b : GoSlice) : List GoSlice :=
  b :: pool

/-! ### The publish retry protocol (src/init.go lines 131 to 152)

PublishAsync either accepts the payload (no error) or fails with
ErrNotConnected, ErrStopped, or some other error. A script maps the
index of each PublishAsync call to its outcome; none means success. -/

inductive PubErr
  | notConnected
  | stopped
  | other (msg : String)
deriving DecidableEq, Repr

/-- How the publish attempts for one record end: the payload was
submitted, abandoned after too many consecutive disconnects, dropped on
ErrStopped (the lone break in that switch case exits only the switch),
or dropped with logging on any other error. -/
inductive PubOutcome
  | submitted
  | abandoned
  | stoppedBreak
  | droppedOther
deriving DecidableEq, Repr

structure AttemptResult where
  outcome : PubOutcome
  dcount : Nat
  attempts : Nat
deriving DecidableEq, Repr

/-- The pub label loop of src/init.go lines 131 to 152 for one record:
call PublishAsync (consult the script at index i); on ErrNotConnected,
if dcount exceeds maxDcount (10) abandon the record, otherwise increment
dcount, sleep 100ms and goto pub; on ErrStopped or any other error fall
out of the switch; on success reset dcount to 0. The result carries the
outcome, the final dcount and the number of PublishAsync calls made. -/
def attemptPublish (script : Nat → Option PubErr) (i : Nat) (dcount : Nat) : AttemptResult :=
  match script i with
  | none => ⟨.submitted, 0, 1⟩
  | some .notConnected =>
    if h : dcount > 10 then ⟨.abandoned, dcount, 1⟩
    else
      let r := attemptPublish script (i + 1) (dcount + 1)
      ⟨r.outcome, r.dcount, r.attempts + 1⟩
  | some .stopped => ⟨.stoppedBreak, dcount, 1⟩
  | some (.other _) => ⟨.droppedOther, dcount, 1⟩
termination_by 11 - dcount
decreasing_by omega

/-! ### The publish loop (src/init.go lines 107 to 157)

Modelled from the spec: the gringo record queue is an external
collaborator; per section 4.2 of the specification it is a FIFO queue
whose non-blocking read yields the oldest element or a nil sentinel when
empty. We model it as a list of optional segments read from the front.

The loop state also records the observable history: the payloads of all
PublishAsync calls in order, the successfully submitted payloads in
order (what the broker sink receives), and how many rendering buffers
were checked out of and returned to the buffer pool. Rendering a
segment (seg.WriteTo(buf) into a freshly truncated buffer) is an
abstract function from segments to byte lists. -/

structure LoopState (σ : Type) where
  queue : List (Option σ)
  dcount : Nat
  fexitPending : Bool
  scriptIdx : Nat
  sink : List (List Nat)
  attempted : List (List Nat)
  bufAcq : Nat
  bufRet : Nat
deriving DecidableEq, Repr

/-- One iteration of the for loop of src/init.go lines 113 to 155.
When a signal is pending on fexit the select runs that case, whose break
exits only the select, so the iteration merely consumes the signal.
Otherwise the default case runs: read from the queue; continue on the
nil sentinel; render through a pooled buffer; on a zero-length rendering
continue (skipping putBuffer, src/init.go line 129); otherwise run the
PublishAsync retry protocol and return the buffer at line 153. -/
def loopStep {σ : Type} (render : σ → List Nat) (script : Nat → Option PubErr)
    (s : LoopState σ) : LoopState σ :=
  if s.fexitPending then
    { s with fexitPending := false }
  else
    match s.queue with
    | [] => s
    | none :: rest => { s with queue := rest }
    | some seg :: rest =>
      let bytes := render seg
      if bytes = [] then
        { s with queue := rest, bufAcq := s.bufAcq + 1 }
      else
        let r := attemptPublish script s.scriptIdx s.dcount
        { queue := rest
          dcount := r.dcount
          fexitPending := s.fexitPending
          scriptIdx := s.scriptIdx + r.attempts
          sink := if r.outcome = .submitted then s.sink ++ [bytes] else s.sink
          attempted := s.attempted ++ List.replicate r.attempts bytes
          bufAcq := s.bufAcq + 1
          bufRet := s.bufRet + 1 }

/-- Run n iterations of the publish loop. -/
def runLoop {σ : Type} (render : σ → List Nat) (script : Nat → Option PubErr) :
    Nat → LoopState σ → LoopState σ
  | 0, s => s
  | n + 1, s => runLoop render script n (loopStep render script s)

/-- The loop state right after NewLogger starts the goroutine
(src/init.go lines 107 to 112): dcount is 0 and no signal, publish or
buffer checkout has happened; the queue holds the pending records. -/
def initState {σ : Type} (q : List (Option σ)) : LoopState σ :=
  { queue := q
    dcount := 0
    fexitPending := false
    scriptIdx := 0
    sink := []
    attempted := []
    bufAcq := 0
    bufRet := 0 }

/-! ### Messages and the facade (src/init.go lines 185 to 191,
src/log/logging.go) -/

/-- A message segment: the capnproto segment doMsg builds carries the
database name, the level, the text and a time stamp. -/
structure MsgSegment where
  dbName : String
  level : LogLevel
  text : String
  time : Int
deriving DecidableEq, Repr

/-- Modelled from the spec: LogMsgtoSegment is called by doMsg
(src/init.go line 188) but its defining file is not among the sources
given. Per sections 4.3 and 8 of the specification, encodeMessage never
fails and produces a segment carrying the level, the text and a time
field equal to the wall-clock second of the call. -/
def LogMsgtoSegment (dbName : String) (level : LogLevel) (message : String)
    (now : Int) : MsgSegment :=
  { dbName := dbName, level := level, text := message, time := now }

/-- doMsg, src/init.go lines 185 to 191: build one segment from the
level and message and write it to the tail of the record queue. The
parameter now is the wall-clock second at the time of the call. -/
def doMsg (dbName : String) (queue : List MsgSegment) (level : LogLevel)
    (message : String) (now : Int) : List MsgSegment :=
  queue ++ [LogMsgtoSegment dbName level message now]

/-! The fragment of fmt.Sprintf the formatted wrappers use. Each wrapper
of src/log/logging.go passes its variadic args slice to fmt.Sprintf as a
single operand (fmt.Sprintf(format, args), not fmt.Sprintf(format,
args...)). A Go value reaching the verb s is here either a string or a
slice of strings; fmt prints a slice bracketed with space-separated
elements. -/

inductive GoVal
  | str (s : String)
  | strSlice (vs : List String)
deriving DecidableEq, Repr

/-- Go fmt formatting of a value under the verb s. -/
def formatS : GoVal → String
  | .str s => s
  | .strSlice vs => "[" ++ String.intercalate " " vs ++ "]"

/-- Fragment of fmt.Sprintf covering the verb s: copy literal characters,
substitute successive operands at each occurrence of the verb, mark
missing and extra operands the way fmt does. -/
def sprintf : List Char → List GoVal → String
  | [], [] => ""
  | [], _ :: _ => "%!(EXTRA)"
  | '%' :: 's' :: rest, a :: args => formatS a ++ sprintf rest args
  | '%' :: 's' :: rest, [] => "%!s(MISSING)" ++ sprintf rest []
  | c :: rest, args => String.singleton c ++ sprintf rest args

/-! The level wrappers of src/log/logging.go lines 19 to 39, written on
the record queue and the wall-clock second the call sees. The formatted
wrappers call fmt.Sprintf(format, args): the collected args slice is one
operand. -/

def Logger.Debug (db : String) (q : List MsgSegment) (v : String) (now : Int) : List MsgSegment :=
  doMsg db q .DEBUG v now

def Logger.Debugf (db : String) (q : List MsgSegment) (format : String)
    (args : List String) (now : Int) : List MsgSegment :=
  doMsg db q .DEBUG (sprintf format.data [GoVal.strSlice args]) now

def Logger.Info (db : String) (q : List MsgSegment) (v : String) (now : Int) : List MsgSegment :=
  doMsg db q .INFO v now

def Logger.Infof (db : String) (q : List MsgSegment) (format : String)
    (args : List String) (now : Int) : List MsgSegment :=
  doMsg db q .INFO (sprintf format.data [GoVal.strSlice args]) now

def Logger.Warn (db : String) (q : List MsgSegment) (v : String) (now : Int) : List MsgSegment :=
  doMsg db q .WARN v now

def Logger.Warnf (db : String) (q : List MsgSegment) (format : String)
    (args : List String) (now : Int) : List MsgSegment :=
  doMsg db q .WARN (sprintf format.data [GoVal.strSlice args]) now

def Logger.Error (db : String) (q : List MsgSegment) (v : String) (now : Int) : List MsgSegment :=
  doMsg db q .ERROR v now

def Logger.Errorf (db : String) (q : List MsgSegment) (format : String)
    (args : List String) (now : Int) : List MsgSegment :=
  doMsg db q .ERROR (sprintf format.data [GoVal.strSlice args]) now

def Logger.Fatal (db : String) (q : List MsgSegment) (v : String) (now : Int) : List MsgSegment :=
  doMsg db q .FATAL v now

def Logger.Fatalf (db : String) (q : List MsgSegment) (format : String)
    (args : List String) (now : Int) : List MsgSegment :=
  doMsg db q .FATAL (sprintf format.data [GoVal.strSlice args]) now

def Logger.Log (db : String) (q : List MsgSegment) (level : LogLevel) (v : String)
    (now : Int) : List MsgSegment :=
  doMsg db q level v now

/-! ### doEntry (src/init.go lines 171 to 183)

An entry is a map from field names to values, modelled as an
association list. EntrytoSegment is repository code whose defining file
is not among the sources given; doEntry only branches on whether it
returns an error, so it is kept as a parameter producing either an
error or a segment of an arbitrary type. -/

/-- The Go map assignment of src/init.go line 172: set the time key to
the current Unix second, replacing any previous binding. -/
def setTime (e : List (String × Int)) (now : Int) : List (String × Int) :=
  ("time", now) :: e.eraseP (fun kv => kv.1 == "time")

/-- doEntry, src/init.go lines 171 to 183: stamp the entry, encode it
with EntrytoSegment; on a non-nil error return it with the record queue
untouched, otherwise write the segment to the queue and return nil.
The first component of the result is the returned error. -/
def doEntry {σ : Type} (enc : List (String × Int) → Except String σ)
    (queue : List σ) (e : List (String × Int)) (now : Int) :
    Option String × List σ :=
  match enc (setTime e now) with
  | .error err => (some err, queue)
  | .ok seg => (none, queue ++ [seg])

/-! ## Theorems -/

/-! ### Claim C1 — retry bound and counter reset -/

theorem attemptPublish_attempts_le (script : Nat → Option PubErr) (i d : Nat) :
    (attemptPublish script i d).attempts ≤ max 1 (12 - d) := by
  induction i, d using attemptPublish.induct script with
  | case1 i d h => rw [attemptPublish]; simp [h]
  | case2 i d h hd => rw [attemptPublish]; simp [h, hd]
  | case3 i d h hd ih => rw [attemptPublish]; simp [h, hd]; omega
  | case4 i d h => rw [attemptPublish]; simp [h]
  | case5 i d m h => rw [attemptPublish]; simp [h]

theorem attemptPublish_submitted_dcount (script : Nat → Option PubErr) (i d : Nat)
    (h : (attemptPublish script i d).outcome = PubOutcome.submitted) :
    (attemptPublish script i d).dcount = 0 := by
  induction i, d using attemptPublish.induct script with
  | case1 i d hs => rw [attemptPublish]; simp [hs]
  | case2 i d hs hd => rw [attemptPublish] at h ⊢; simp [hs, hd] at h
  | case3 i d hs hd ih =>
      rw [attemptPublish] at h ⊢
      simp [hs, hd] at h ⊢
      exact ih h
  | case4 i d hs => rw [attemptPublish] at h; simp [hs] at h
  | case5 i d m hs => rw [attemptPublish] at h; simp [hs] at h

/-- Claim C1, counterexample: with every PublishAsync call failing with
ErrNotConnected and the disconnect counter starting at 0, the record is
abandoned only after 12 publish attempts — the check dcount greater than
maxDcount runs before the increment, so a 12th attempt does occur,
against the claim that 11 consecutive failures drop the record without a
12th attempt (and against a cap of 10 consecutive retries). -/
theorem retry_cap_counterexample :
    attemptPublish (fun _ => some PubErr.notConnected) 0 0 =
      ⟨PubOutcome.abandoned, 11, 12⟩ := by
  simp [attemptPublish]

/-- Claim C1 (amended): starting from a disconnect counter of 0, the
publish loop makes at most 12 PublishAsync calls for one record, that is
at most 11 consecutive retries; 12 consecutive not-connected failures
abandon the record without a 13th call, leaving the counter at 11; and
after any successful publish submission the counter is reset to 0. -/
theorem retry_cap_amended (script : Nat → Option PubErr) (i : Nat) :
    (attemptPublish script i 0).attempts ≤ 12 ∧
    attemptPublish (fun _ => some PubErr.notConnected) i 0 =
      ⟨PubOutcome.abandoned, 11, 12⟩ ∧
    ((attemptPublish script i 0).outcome = PubOutcome.submitted →
      (attemptPublish script i 0).dcount = 0) := by
  refine ⟨?_, by simp [attemptPublish], attemptPublish_submitted_dcount script i 0⟩
  simpa using attemptPublish_attempts_le script i 0

/-- Witness for the amended claim C1 at a concrete input: with a script
whose first call succeeds, the submitted outcome occurs and the counter
is reset to 0. -/
theorem retry_cap_amended_witness :
    (attemptPublish (fun _ => none) 0 0).dcount = 0 :=
  (retry_cap_amended (fun _ => none) 0).2.2 (by rw [attemptPublish])

/-! ### Claim C5 — pool checkout state -/

/-- Claim C5, code bug: getBuffer truncates the popped buffer to zero
length retaining capacity, but getBytes reslices the popped slice as
bytes[0:], which keeps its previous length: a slice released to the pool
with length 2 and content 7, 8 is checked out again with length 2 and
the same content, not reset to zero length. -/
theorem getBytes_checkout_retains_content :
    getBuffer ⟨[9, 9, 9], 5⟩ = ⟨[], 5⟩ ∧
    (getBytes ⟨[7, 8], 2⟩).len = 2 ∧
    (getBytes ⟨[7, 8], 2⟩).contents = [7, 8] :=
  ⟨rfl, rfl, rfl⟩

/-! ### Claim C8 — logMessage at level ERROR -/

/-- Claim C8: for every database name, queue state and call instant,
calling the ERROR-level message operation with text disk full enqueues
exactly one segment, and that segment carries level ERROR, the text disk
full, and a time field equal to the wall-clock second of the call. -/
theorem error_disk_full_enqueues_one (db : String) (q : List MsgSegment) (now : Int) :
    Logger.Error db q "disk full" now =
      q ++ [{ dbName := db, level := .ERROR, text := "disk full", time := now }] :=
  rfl

/-! ### Claim C9 — formatted wrappers versus Sprintf with spread args -/

/-- Claim C9, code bug: every formatted wrapper passes the collected
args slice to fmt.Sprintf as a single operand instead of spreading it,
so Infof with format string percent-s and argument x enqueues the text
bracket x bracket, while Info applied to the Sprintf of the spread
arguments enqueues x; the two enqueued messages differ. -/
theorem formatted_variant_slice_arg_bug :
    Logger.Infof "db" [] "%s" ["x"] 0 =
      [{ dbName := "db", level := .INFO, text := "[x]", time := 0 }] ∧
    Logger.Info "db" [] (sprintf "%s".data [GoVal.str "x"]) 0 =
      [{ dbName := "db", level := .INFO, text := "x", time := 0 }] ∧
    sprintf "%s".data [GoVal.strSlice ["x"]] ≠ sprintf "%s".data [GoVal.str "x"] := by
  refine ⟨by decide, by decide, by decide⟩

/-! ### Claim C10 — doEntry on the encoder error path -/

/-- Claim C10: doEntry returns the encoder error and leaves the record
queue unchanged whenever encoding the stamped entry fails, writes
exactly the encoded segment to the queue when encoding succeeds, and
hence a segment is enqueued if and only if encoding succeeded. -/
theorem doEntry_queue_unchanged_iff_error {σ : Type}
    (enc : List (String × Int) → Except String σ) (q : List σ)
    (e : List (String × Int)) (now : Int) :
    (∀ err, enc (setTime e now) = .error err → doEntry enc q e now = (some err, q)) ∧
    (∀ seg, enc (setTime e now) = .ok seg → doEntry enc q e now = (none, q ++ [seg])) ∧
    ((doEntry enc q e now).1 = none ↔ (doEntry enc q e now).2 ≠ q) := by
  refine ⟨fun err herr => by simp [doEntry, herr],
          fun seg hseg => by simp [doEntry, hseg], ?_⟩
  rcases h : enc (setTime e now) with err | seg
  · simp [doEntry, h]
  · simp only [doEntry, h]
    constructor
    · intro _ hEq
      have := congrArg List.length hEq
      simp at this
    · intro _
      trivial

/-- Witness for claim C10 at a concrete input: an encoder that always
fails makes doEntry return the error with the queue untouched. -/
theorem doEntry_queue_unchanged_iff_error_witness :
    doEntry (fun _ => (Except.error "bad" : Except String Nat)) [] [] 0 =
      (some "bad", []) :=
  (doEntry_queue_unchanged_iff_error
    (fun _ => (Except.error "bad" : Except String Nat)) [] [] 0).1 "bad" rfl

/-! ### Claim C2 — the stop signal and the shutdown order -/

/-- The loop state at the moment Close has sent the stop signal (the
unbuffered send completes exactly when the loop selects the fexit case)
while one record, rendering to the single byte 1, is still queued. -/
def c2Start : LoopState Unit :=
  { queue := [some ()]
    dcount := 0
    fexitPending := true
    scriptIdx := 0
    sink := []
    attempted := []
    bufAcq := 0
    bufRet := 0 }

/-- Claim C2, failing run: in the iteration that observes the stop
signal the loop makes no publish attempt and clears the signal, because
the break of src/init.go line 117 exits only the select statement; the
loop therefore keeps running, and the very next iteration publishes the
queued record — a publish attempt after the stop signal was observed,
while Close has already gone on to close the completion channel and stop
the sink. -/
theorem close_signal_publish_after_observed :
    (runLoop (fun _ : Unit => [1]) (fun _ => none) 1 c2Start).fexitPending = false ∧
    (runLoop (fun _ : Unit => [1]) (fun _ => none) 1 c2Start).attempted = [] ∧
    (runLoop (fun _ : Unit => [1]) (fun _ => none) 2 c2Start).attempted = [[1]] := by
  refine ⟨rfl, rfl, ?_⟩
  simp [runLoop, loopStep, c2Start, attemptPublish]

/-! ### Claim C3 — the sink-stopped error does not stop the loop -/

/-- Claim C3, failing run: two records are queued, rendering to the
bytes 1 and 2; the PublishAsync call for the first fails with
ErrStopped. The break of src/init.go line 145 exits only the switch
statement, so the loop does not stop: it reads the second record and
publishes it — a further read and publish attempt after a sink-stopped
failure, against the claimed immediate transition to the stopped state. -/
theorem stopped_error_loop_continues :
    (runLoop (fun b : Bool => if b then [1] else [2])
        (fun i => if i = 0 then some PubErr.stopped else none) 2
        (initState [some true, some false])).attempted = [[1], [2]] ∧
    (runLoop (fun b : Bool => if b then [1] else [2])
        (fun i => if i = 0 then some PubErr.stopped else none) 2
        (initState [some true, some false])).sink = [[2]] := by
  constructor <;> simp [runLoop, loopStep, initState, attemptPublish]

/-! ### Claim C4 — FIFO order of delivery to the broker sink -/

theorem loopStep_success {σ : Type} (render : σ → List Nat) (s : LoopState σ)
    (x : σ) (rest : List (Option σ)) (h1 : s.fexitPending = false)
    (h2 : s.queue = some x :: rest) (hx : render x ≠ []) :
    loopStep render (fun _ => none) s =
      { queue := rest
        dcount := 0
        fexitPending := false
        scriptIdx := s.scriptIdx + 1
        sink := s.sink ++ [render x]
        attempted := s.attempted ++ [render x]
        bufAcq := s.bufAcq + 1
        bufRet := s.bufRet + 1 } := by
  have ha : attemptPublish (fun _ => none) s.scriptIdx s.dcount =
      ⟨.submitted, 0, 1⟩ := by rw [attemptPublish]
  simp [loopStep, h1, h2, hx, ha]

theorem runLoop_success_fifo {σ : Type} (render : σ → List Nat) :
    ∀ (q : List σ) (s : LoopState σ), s.fexitPending = false →
      s.queue = q.map some → (∀ x ∈ q, render x ≠ []) →
      (runLoop render (fun _ => none) q.length s).sink = s.sink ++ q.map render := by
  intro q
  induction q with
  | nil => intro s _ _ _; simp [runLoop]
  | cons x xs ih =>
    intro s h1 h2 h3
    have hx : render x ≠ [] := h3 x (by simp)
    rw [List.length_cons, runLoop,
        loopStep_success render s x (xs.map some) h1 (by simpa using h2) hx]
    rw [ih _ rfl rfl (fun y hy => h3 y (by simp [hy]))]
    simp

/-- Claim C4: records enqueued by a single caller are submitted to the
broker sink in enqueue order — the queue is FIFO and the loop processes
strictly one record at a time, so with every submission accepted the
sink receives exactly the rendered records in the order they were
enqueued. -/
theorem fifo_order_preserved {σ : Type} (render : σ → List Nat) (q : List σ)
    (h : ∀ x ∈ q, render x ≠ []) :
    (runLoop render (fun _ => none) q.length (initState (q.map some))).sink =
      q.map render := by
  simpa [initState] using
    runLoop_success_fifo render q (initState (q.map some)) rfl rfl h

/-- Witness for claim C4 at a concrete input: three records enqueued in
the order 0, 1, 2 reach the sink as their renderings in that order. -/
theorem fifo_order_preserved_witness :
    (runLoop (fun n : Nat => [n + 1]) (fun _ => none) 3
        (initState [some 0, some 1, some 2])).sink = [[1], [2], [3]] := by
  simpa using fifo_order_preserved (fun n : Nat => [n + 1]) [0, 1, 2] (by decide)

/-! ### Claim C6 — the rendering buffer and the pool -/

/-- Claim C6, counterexample: one queued record renders to zero bytes;
the continue of src/init.go line 129 skips the putBuffer call of line
153, so the iteration checks a buffer out of the pool and never returns
it — the buffer is leaked on the zero-length-render discard path. -/
theorem zero_render_buffer_not_returned :
    (loopStep (fun _ : Unit => []) (fun _ => none) (initState [some ()])).bufAcq = 1 ∧
    (loopStep (fun _ : Unit => []) (fun _ => none) (initState [some ()])).bufRet = 0 :=
  ⟨rfl, rfl⟩

/-- Claim C6 (amended): for every record the loop takes from the queue
whose rendering is non-empty, the rendering buffer checked out for it is
returned to the pool in the same iteration on every outcome of the
publish attempt — successful submission, drop on a non-transient error,
sink-stopped, and abandonment after exhausted retries; on the
zero-length-render discard path, however, the buffer is checked out and
not returned. -/
theorem buffer_returned_on_every_attempt {σ : Type} (render : σ → List Nat)
    (script : Nat → Option PubErr) (s : LoopState σ) (seg : σ)
    (rest : List (Option σ)) (h1 : s.fexitPending = false)
    (h2 : s.queue = some seg :: rest) :
    (render seg ≠ [] →
      (loopStep render script s).bufAcq = s.bufAcq + 1 ∧
      (loopStep render script s).bufRet = s.bufRet + 1) ∧
    (render seg = [] →
      (loopStep render script s).bufAcq = s.bufAcq + 1 ∧
      (loopStep render script s).bufRet = s.bufRet) := by
  constructor <;> intro hr <;> simp [loopStep, h1, h2, hr]

/-- Witness for the amended claim C6 at a concrete input: a record
rendering to one byte has its buffer checked out and returned in the
same iteration. -/
theorem buffer_returned_on_every_attempt_witness :
    (loopStep (fun _ : Unit => [1]) (fun _ => none) (initState [some ()])).bufRet = 1 := by
  simpa [initState] using
    ((buffer_returned_on_every_attempt (fun _ : Unit => [1]) (fun _ => none)
      (initState [some ()]) () [] rfl rfl).1 (by decide)).2

/-! ### Claim C7 — zero-length renderings are never published -/

theorem loopStep_attempted_nonempty {σ : Type} (render : σ → List Nat)
    (script : Nat → Option PubErr) (s : LoopState σ)
    (h : ∀ p ∈ s.attempted, p ≠ []) :
    ∀ p ∈ (loopStep render script s).attempted, p ≠ [] := by
  intro p hp
  by_cases hf : s.fexitPending = true
  · simp only [loopStep, if_pos hf] at hp
    exact h p hp
  · rcases hq : s.queue with _ | ⟨_ | seg, rest⟩
    · simp [loopStep, hf, hq] at hp
      exact h p hp
    · simp [loopStep, hf, hq] at hp
      exact h p hp
    · by_cases hb : render seg = []
      · simp [loopStep, hf, hq, hb] at hp
        exact h p hp
      · simp [loopStep, hf, hq, hb] at hp
        rcases hp with hp1 | ⟨-, rfl⟩
        · exact h p hp1
        · exact hb

theorem runLoop_attempted_nonempty {σ : Type} (render : σ → List Nat)
    (script : Nat → Option PubErr) :
    ∀ (n : Nat) (s : LoopState σ), (∀ p ∈ s.attempted, p ≠ []) →
      ∀ p ∈ (runLoop render script n s).attempted, p ≠ [] := by
  intro n
  induction n with
  | zero => intro s h; simpa [runLoop] using h
  | succ n ih =>
    intro s h
    rw [runLoop]
    exact ih _ (loopStep_attempted_nonempty render script s h)

/-- Claim C7: a record whose rendering is zero-length is discarded — the
iteration only drops it from the queue (and leaks its buffer) without
touching the publish history — and across every run of the loop from its
initial state, every payload handed to PublishAsync is non-empty, so a
zero-length payload is never submitted to the broker sink. -/
theorem zero_length_render_never_published {σ : Type} (render : σ → List Nat)
    (script : Nat → Option PubErr) :
    (∀ (s : LoopState σ) (seg : σ) (rest : List (Option σ)),
      s.fexitPending = false → s.queue = some seg :: rest → render seg = [] →
      loopStep render script s = { s with queue := rest, bufAcq := s.bufAcq + 1 }) ∧
    (∀ (n : Nat) (q : List (Option σ)),
      ((runLoop render script n (initState q)).attempted.all fun p => !p.isEmpty) = true) := by
  constructor
  · intro s seg rest h1 h2 h3
    simp [loopStep, h1, h2, h3]
  · intro n q
    rw [List.all_eq_true]
    intro p hp
    have hne := runLoop_attempted_nonempty render script n (initState q)
      (by simp [initState]) p hp
    cases p with
    | nil => exact absurd rfl hne
    | cons a l => rfl

/-- Witness for claim C7 at a concrete input: the iteration on a record
rendering to zero bytes only drops it from the queue and counts the
leaked buffer checkout. -/
theorem zero_length_render_never_published_witness :
    loopStep (fun _ : Unit => []) (fun _ => none) (initState [some ()]) =
      { queue := []
        dcount := 0
        fexitPending := false
        scriptIdx := 0
        sink := []
        attempted := []
        bufAcq := 1
        bufRet := 0 } := by
  simpa [initState] using
    (zero_length_render_never_published (fun _ : Unit => []) (fun _ => none)).1
      (initState [some ()]) () [] rfl rfl rfl
